import Mathlib

/-!
Verification of the regscraper admission-control core.

This file gives a shallow embedding, in Lean, of the parts of the
SrinivasPT/scraper repository that its specification talks about:

* the robots.txt compliance cache (`src/regscraper/infrastructure/robots.py`),
* the per-domain throttler (`src/regscraper/infrastructure/domain.py`) and the
  module-level throttler (`src/regscraper/throttler/domain.py`),
* the combined gateway (`src/regscraper/infrastructure/throttle.py`),
* the retrying HTTP downloader (`src/regscraper/downloader/http.py`),
* the processor selection chain (`src/regscraper/processors/*.py`),
* the batch orchestrator (`src/regscraper/batch.py`).

Python strings are embedded as Lean `String`; every Python string primitive
used by the source is re-implemented below over `String.data` so that all
definitions are executable and kernel-reducible.  Wall-clock time and
configured delays are embedded as `ℤ` in tenths of a second (every duration
constant in the source is exact in tenths), cooperative-async interleavings as
an explicit small-step scheduler, and network I/O as explicit oracle
arguments.
-/

namespace Py

/-- Python `str.lower()` (ASCII, which is all this repository feeds it). -/
def lower (s : String) : String := ⟨s.data.map Char.toLower⟩

/-- Python `str.endswith(suffix)`. -/
def endswith (s suf : String) : Bool := List.isSuffixOf suf.data s.data

/-- Python `str.startswith(p)`. -/
def startswith (s p : String) : Bool := List.isPrefixOf p.data s.data

/-- Substring search on character lists. -/
def isInfixOfCL (sub : List Char) : List Char → Bool
  | [] => sub.isEmpty
  | x :: t => List.isPrefixOf sub (x :: t) || isInfixOfCL sub t

/-- Python `sub in s` (substring containment). -/
def containsStr (s sub : String) : Bool := isInfixOfCL sub.data s.data

/-- Python `str.strip()`. -/
def strip (s : String) : String :=
  ⟨((s.data.dropWhile Char.isWhitespace).reverse.dropWhile Char.isWhitespace).reverse⟩

/-- Helper for `splitFirst`: split a character list at the first occurrence
of `c`, returning the pieces before and after it. -/
def splitFirstAux (c : Char) : List Char → Option (List Char × List Char)
  | [] => none
  | x :: xs =>
    if x = c then some ([], xs)
    else (splitFirstAux c xs).map (fun p => (x :: p.1, p.2))

/-- Python `s.split(c, 1)` when the separator occurs (else `none`). -/
def splitFirst (s : String) (c : Char) : Option (String × String) :=
  (splitFirstAux c s.data).map (fun p => (⟨p.1⟩, ⟨p.2⟩))

/-- Digits-only string to a natural number (`none` on empty or non-digit). -/
def digitsToNat (l : List Char) : Option ℕ :=
  if l = [] then none
  else if l.all Char.isDigit then
    some (l.foldl (fun acc c => acc * 10 + (c.toNat - 48)) 0)
  else none

/-- Python `float(s)` restricted to the non-negative decimal literals robots
files use (`"5"`, `"0.5"`, ...); `none` models `ValueError`. -/
def parseFloat (s : String) : Option ℚ :=
  match splitFirst s '.' with
  | none => (digitsToNat s.data).map (fun n => (n : ℚ))
  | some (w, f) =>
    match digitsToNat w.data, digitsToNat f.data with
    | some a, some b => some ((a : ℚ) + (b : ℚ) / ((10 : ℚ) ^ f.data.length))
    | _, _ => none

/-- First occurrence of `pat` in a character list, returning what follows it. -/
def afterFirst (pat : List Char) : List Char → Option (List Char)
  | [] => none
  | x :: t =>
    if List.isPrefixOf pat (x :: t) then some ((x :: t).drop pat.length)
    else afterFirst pat t

end Py

/-- Modelled from the spec: Python's `urllib.parse.urlparse(url).netloc`
(an external standard-library collaborator, not under src/): the host part of
a URL is what stands between the first `//` and the next `/`, `?` or `#`;
a URL with no `//` has an empty netloc. -/
def netloc (url : String) : String :=
  match Py.afterFirst "//".data url.data with
  | some rest => ⟨rest.takeWhile (fun c => c != '/' && c != '?' && c != '#')⟩
  | none => ""

/-- `_get_domain` / `domain_of`: `urlparse(url).netloc.lower()`
(src/regscraper/infrastructure/domain.py, robots.py; src/regscraper/utils/urls.py). -/
def get_domain (url : String) : String := Py.lower (netloc url)

namespace Processors

/-- The processor strategies of `src/regscraper/processors/*.py`. -/
inductive ProcessorKind
  | pdf
  | docx
  | rss
  | html
deriving DecidableEq

/-- Python truthiness of `content_type and sub in content_type.lower()`:
`None` and the empty string are falsy. -/
def ctContains (content_type : Option String) (sub : String) : Bool :=
  match content_type with
  | none => false
  | some c => !(c == "") && Py.containsStr (Py.lower c) sub

/-- `PdfProcessor.can_handle` (src/regscraper/processors/pdf_processor.py):
`url.lower().endswith(".pdf") or (content_type and "pdf" in content_type.lower())`. -/
def pdf_can_handle (url : String) (content_type : Option String) : Bool :=
  Py.endswith (Py.lower url) ".pdf" || ctContains content_type "pdf"

/-- `DocxProcessor.can_handle` (src/regscraper/processors/docx_processor.py). -/
def docx_can_handle (url : String) (content_type : Option String) : Bool :=
  Py.endswith (Py.lower url) ".docx" || Py.endswith (Py.lower url) ".doc" ||
    (ctContains content_type "docx" || ctContains content_type "msword")

/-- `RssProcessor.can_handle` (src/regscraper/processors/rss_processor.py). -/
def rss_can_handle (url : String) (content_type : Option String) : Bool :=
  Py.endswith (Py.lower url) ".rss" || Py.containsStr (Py.lower url) "/feed" ||
    Py.containsStr (Py.lower url) ".rss" ||
    (ctContains content_type "rss" || ctContains content_type "xml" ||
      ctContains content_type "atom")

/-- `HtmlProcessor.can_handle` (src/regscraper/processors/html_processor.py):
refuses URLs that look like another format, then checks a truthy declared
content type for `"html"`/`"text/plain"`, else defaults to `true`. -/
def html_can_handle (url : String) (content_type : Option String) : Bool :=
  if [".pdf", ".docx", ".doc", ".rss", "/feed"].any
      (fun e => Py.containsStr (Py.lower url) e) then false
  else
    match content_type with
    | none => true
    | some c =>
      if c == "" then true
      else ["html", "text/plain"].any (fun f => Py.containsStr (Py.lower c) f)

/-- The ordered strategy list built in `ProcessorFactory.__init__`
(src/regscraper/processors/factory.py, lines 16-21). -/
def processors : List (ProcessorKind × (String → Option String → Bool)) :=
  [(.pdf, pdf_can_handle), (.docx, docx_can_handle),
   (.rss, rss_can_handle), (.html, html_can_handle)]

/-- `ProcessorFactory.get_processor` (src/regscraper/processors/factory.py):
first strategy whose `can_handle` accepts, with an HTML fallback. -/
def get_processor (url : String) (content_type : Option String) : ProcessorKind :=
  match processors.find? (fun p => p.2 url content_type) with
  | some p => p.1
  | none => .html

end Processors

/-- Update-or-insert into an association list: the embedding of a Python
dict assignment `d[k] = v` (existing keys keep their position). -/
def setAssoc {α : Type} (l : List (String × α)) (k : String) (v : α) :
    List (String × α) :=
  match l with
  | [] => [(k, v)]
  | (k', v') :: t => if k' == k then (k, v) :: t else (k', v') :: setAssoc t k v

namespace Robots

/-- Modelled from the spec: Python's `urllib.robotparser.RobotFileParser`
(an external standard-library collaborator, not under src/), restricted to
what this repository feeds it.  A parsed policy is the ordered list of
`(userAgent, isAllowRule, path)` line rules (the spec's "allow/disallow line
rules"). -/
structure RobotFileParser where
  rules : List (String × Bool × String)
deriving DecidableEq

/-- One `key: value` robots line, key lower-cased and both sides stripped. -/
def parseLine (line : String) : Option (String × String) :=
  (Py.splitFirst line ':').map (fun p => (Py.lower (Py.strip p.1), Py.strip p.2))

/-- Fold step for `RobotFileParser.parse`: `User-agent:` lines set the agent
group for the allow/disallow rules that follow. -/
def parseStep (st : String × List (String × Bool × String)) (line : String) :
    String × List (String × Bool × String) :=
  match parseLine line with
  | some (k, v) =>
    if k == "user-agent" then (v, st.2)
    else if k == "allow" then (st.1, st.2 ++ [(st.1, true, v)])
    else if k == "disallow" then (st.1, st.2 ++ [(st.1, false, v)])
    else st
  | none => st

/-- Modelled from the spec: `RobotFileParser.parse(lines)` collects the
allow/disallow rules grouped under the most recent `User-agent` line. -/
def RobotFileParser.parse (lines : List String) : RobotFileParser :=
  ⟨(lines.foldl parseStep ("*", [])).2⟩

/-- Modelled from the spec: a rule's user-agent group applies when it is the
wildcard `*` or occurs in the client's agent string (case-insensitive). -/
def agent_matches (ruleAgent agent : String) : Bool :=
  ruleAgent == "*" || Py.containsStr (Py.lower agent) (Py.lower ruleAgent)

/-- Modelled from the spec: a rule path applies by prefix match against the
request; the external parser normalizes every request path to start with
`/`, so the rule paths `*` and `/` apply to every URL. -/
def path_applies (rulePath url : String) : Bool :=
  rulePath == "*" || rulePath == "/" || Py.startswith url rulePath

/-- Modelled from the spec: `RobotFileParser.can_fetch(agent, url)` applies
the first rule whose agent group and path both match; with no applicable
rule the URL is allowed. -/
def can_fetch (p : RobotFileParser) (agent url : String) : Bool :=
  match p.rules.find? (fun r => agent_matches r.1 agent && path_applies r.2.2 url) with
  | some r => r.2.1
  | none => true

/-- The synthetic fail-open policy the checker installs on any retrieval
failure: `parser.parse(["User-agent: *", "Allow: /"])`
(src/regscraper/infrastructure/robots.py, lines 49-56). -/
def allow_all_policy : RobotFileParser :=
  RobotFileParser.parse ["User-agent: *", "Allow: /"]

/-- `RobotsTxtChecker` state (src/regscraper/infrastructure/robots.py,
lines 11-14): the user agent, the permanent per-domain parser cache, and the
crawl-delay map (seconds, exact rationals). -/
structure RobotsTxtChecker where
  user_agent : String
  cache : List (String × RobotFileParser)
  crawl_delays : List (String × ℚ)
deriving DecidableEq

/-- The outcome of one robots.txt retrieval over the network: an HTTP
response (status code and body split into lines) or a raised exception
(network error / timeout). -/
inductive HttpResult
  | response (status : ℕ) (lines : List String)
  | netError
deriving DecidableEq

/-- `RobotsTxtChecker._parse_crawl_delay` (src/regscraper/infrastructure/robots.py,
lines 61-70): the first parseable `crawl-delay` line sets the domain's delay,
floored at 0.5 s; unparseable lines are skipped. -/
def _parse_crawl_delay (delays : List (String × ℚ)) (domain : String)
    (lines : List String) : List (String × ℚ) :=
  match lines.findSome? (fun line =>
      if Py.startswith (Py.strip (Py.lower line)) "crawl-delay" then
        match Py.splitFirst line ':' with
        | some p => (Py.parseFloat (Py.strip p.2)).map (fun d => max d (1/2 : ℚ))
        | none => none
      else none) with
  | some d => setAssoc delays domain d
  | none => delays

/-- The cache lookup-or-fetch of `RobotsTxtChecker`
(src/regscraper/infrastructure/robots.py,
lines 31-59): answer from the cache when present; otherwise fetch (`net` is
the oracle for that one retrieval), parse on a 200, install the fail-open
`allow_all_policy` on a non-200 status or a raised exception, and cache the
result.  The third component counts network retrievals performed (0 or 1). -/
def _get_robots_policy (c : RobotsTxtChecker) (domain : String) (net : HttpResult) :
    RobotFileParser × RobotsTxtChecker × ℕ :=
  match c.cache.lookup domain with
  | some p => (p, c, 0)
  | none =>
    match net with
    | .response status lines =>
      if status == 200 then
        let parser := RobotFileParser.parse lines
        (parser,
         { c with cache := setAssoc c.cache domain parser,
                  crawl_delays := _parse_crawl_delay c.crawl_delays domain lines }, 1)
      else
        (allow_all_policy,
         { c with cache := setAssoc c.cache domain allow_all_policy }, 1)
    | .netError =>
      (allow_all_policy,
       { c with cache := setAssoc c.cache domain allow_all_policy }, 1)

/-- `RobotsTxtChecker.is_allowed` (src/regscraper/infrastructure/robots.py,
lines 16-20): resolve the domain's parser (fetching at most once) and apply
`can_fetch`.  Returns the verdict, the updated checker, and the number of
network retrievals this call performed. -/
def is_allowed (c : RobotsTxtChecker) (url : String) (net : HttpResult) :
    Bool × RobotsTxtChecker × ℕ :=
  let r := _get_robots_policy c (get_domain url) net
  (can_fetch r.1 c.user_agent url, r.2.1, r.2.2)

/-- Run a sequence of `is_allowed` calls (each with its own network oracle),
keeping the evolving checker state. -/
def run_calls (c : RobotsTxtChecker) : List (String × HttpResult) → RobotsTxtChecker
  | [] => c
  | (url, net) :: rest => run_calls (is_allowed c url net).2.1 rest

/-- Total number of network retrievals a sequence of `is_allowed` calls
performs for the domain `d`. -/
def run_count (c : RobotsTxtChecker) (calls : List (String × HttpResult)) (d : String) : ℕ :=
  match calls with
  | [] => 0
  | (url, net) :: rest =>
    let r := is_allowed c url net
    (if get_domain url == d then r.2.2 else 0) + run_count r.2.1 rest d

/-- Whether a retrieval outcome is a failure in the sense of the fail-open
rule: a raised exception or any non-200 status. -/
def failed_fetch : HttpResult → Bool
  | .response status _ => !(status == 200)
  | .netError => true

end Robots

namespace Infra

/-- `DomainThrottler` state (src/regscraper/infrastructure/domain.py,
lines 8-13): configured defaults, the per-domain semaphores (available
permits), the per-domain ``last request`` timestamps, and the global
semaphore's available permits (initialized to 10).  Durations/times are in
tenths of a second, so the source defaults `default_delay=2.0`,
`default_concurrency=2` become `20` and `2`. -/
structure DomainThrottler where
  default_delay : ℤ
  default_concurrency : ℕ
  domain_locks : List (String × ℕ)
  last_request : List (String × ℤ)
  global_avail : ℕ
deriving DecidableEq

/-- `DomainThrottler.__init__` with the source's default arguments. -/
def DomainThrottler.init : DomainThrottler := ⟨20, 2, [], [], 10⟩

/-- `DomainThrottler.configure_domain` (src/regscraper/infrastructure/domain.py,
lines 41-43): installs a fresh semaphore of the given concurrency for the
domain.  As in the source, the `delay` argument is accepted but not used. -/
def configure_domain (st : DomainThrottler) (domain : String) (delay : ℤ)
    (concurrency : ℕ) : DomainThrottler :=
  { st with domain_locks := setAssoc st.domain_locks domain concurrency }

/-- `DomainThrottler._get_domain_lock` (src/regscraper/infrastructure/domain.py,
lines 49-53): get or lazily create the domain's semaphore; returns its
available permits together with the (possibly extended) state. -/
def _get_domain_lock (st : DomainThrottler) (domain : String) : ℕ × DomainThrottler :=
  match st.domain_locks.lookup domain with
  | some v => (v, st)
  | none =>
    (st.default_concurrency,
     { st with domain_locks := setAssoc st.domain_locks domain st.default_concurrency })

/-- `DomainThrottler._enforce_delay` (src/regscraper/infrastructure/domain.py,
lines 55-66): if the elapsed time since the domain's last request is below
`default_delay` (note: always the instance default, never a per-domain
value), sleep for the difference; then stamp the domain with the current
time.  Returns the updated state and the time at which the call returns. -/
def _enforce_delay (st : DomainThrottler) (domain : String) (now : ℤ) :
    DomainThrottler × ℤ :=
  match st.last_request.lookup domain with
  | some last =>
    if now - last < st.default_delay then
      let t := now + (st.default_delay - (now - last))
      ({ st with last_request := setAssoc st.last_request domain t }, t)
    else ({ st with last_request := setAssoc st.last_request domain now }, now)
  | none => ({ st with last_request := setAssoc st.last_request domain now }, now)

/-- `DomainThrottler.acquire` (src/regscraper/infrastructure/domain.py,
lines 15-35), sequential (uncontended) form: take the global semaphore, take
the domain semaphore, run `_enforce_delay`, then — still inside `acquire` —
release the domain semaphore (the `finally` on line 30-31).  Returns the
state and the admission time, or `none` where the coroutine would block on
an empty semaphore. -/
def acquire (st : DomainThrottler) (url : String) (now : ℤ) :
    Option (DomainThrottler × ℤ) :=
  let domain := get_domain url
  if st.global_avail = 0 then none
  else
    let st1 := { st with global_avail := st.global_avail - 1 }
    let r := _get_domain_lock st1 domain
    if r.1 = 0 then none
    else
      let st2 := { r.2 with domain_locks := setAssoc r.2.domain_locks domain (r.1 - 1) }
      let r2 := _enforce_delay st2 domain now
      let cur := (r2.1.domain_locks.lookup domain).getD 0
      let st3 := { r2.1 with domain_locks := setAssoc r2.1.domain_locks domain (cur + 1) }
      some (st3, r2.2)

/-- `DomainThrottler.release_global` (src/regscraper/infrastructure/domain.py,
lines 37-39): an unconditional `asyncio.Semaphore.release`. -/
def release_global (st : DomainThrottler) : DomainThrottler :=
  { st with global_avail := st.global_avail + 1 }

end Infra

/-- The Python exceptions these components raise. -/
inductive PyError
  | permissionError (msg : String)
  | httpError (msg : String)
deriving DecidableEq

namespace Gateway

/-- `ThrottledRobotsChecker` state (src/regscraper/infrastructure/throttle.py):
the robots checker composed with the throttler. -/
structure ThrottledRobotsChecker where
  robots : Robots.RobotsTxtChecker
  throttler : Infra.DomainThrottler
deriving DecidableEq

/-- `ThrottledRobotsChecker.check_and_acquire`
(src/regscraper/infrastructure/throttle.py, lines 12-20): the robots check
runs first; a disallowed URL raises `PermissionError` before
`throttler.acquire` is reached.  Returns the outcome (admission time on
success, `none` when the throttler would block), the updated state, and
whether the throttler-acquisition path was entered at all. -/
def check_and_acquire (s : ThrottledRobotsChecker) (net : Robots.HttpResult)
    (url : String) (now : ℤ) :
    Except PyError (Option ℤ) × ThrottledRobotsChecker × Bool :=
  let r := Robots.is_allowed s.robots url net
  if r.1 then
    match Infra.acquire s.throttler url now with
    | some p => (.ok (some p.2), ⟨r.2.1, p.1⟩, true)
    | none => (.ok none, ⟨r.2.1, s.throttler⟩, true)
  else
    (.error (.permissionError ("URL blocked by robots.txt: " ++ url)),
     ⟨r.2.1, s.throttler⟩, false)

/-- `ThrottledRobotsChecker.release_throttle`
(src/regscraper/infrastructure/throttle.py, lines 22-25). -/
def release_throttle (s : ThrottledRobotsChecker) : ThrottledRobotsChecker :=
  { s with throttler := Infra.release_global s.throttler }

end Gateway

namespace Downloader

/-- `DownloadResult` (src/regscraper/interfaces/__init__.py). -/
structure DownloadResult where
  content : String
  content_type : String
  url : String
deriving DecidableEq

/-- One body execution of `HttpDownloader.download`
(src/regscraper/downloader/http.py, lines 22-43): `check_and_acquire` runs
first and raises `PermissionError` on a robots denial — before the `try`
block, so nothing is released and the transport is never entered; on an
admitted URL the transport runs and the `finally` always releases.  The
second component records whether the transport was called. -/
def download_attempt (robots_allows : Bool) (url : String)
    (transport : Except String (String × String)) :
    Except PyError DownloadResult × Bool :=
  if robots_allows then
    match transport with
    | .ok p => (.ok ⟨p.1, p.2, url⟩, true)
    | .error e => (.error (.httpError e), true)
  else
    (.error (.permissionError ("URL blocked by robots.txt: " ++ url)), false)

/-- Modelled from the spec: the `tenacity` retry decorator (an external
collaborator, not under src/) with `stop=stop_after_attempt(n)` and its
default retry condition, which retries on *any* exception; after the n-th
failed attempt it raises `RetryError` wrapping the last exception. -/
inductive TenacityResult (α : Type)
  | ok (a : α)
  | retryError (last : PyError)
deriving DecidableEq

/-- Modelled from the spec: the retry loop of `tenacity`.  `remaining` is the
number of retries still permitted after the current attempt; the result also
carries the number of attempts made and of transport calls performed. -/
def tenacity_go {α : Type} (attempt : ℕ → Except PyError α × Bool) :
    ℕ → ℕ → TenacityResult α × ℕ × ℕ
  | i, remaining =>
    let r := attempt i
    let t := if r.2 then 1 else 0
    match r.1, remaining with
    | .ok a, _ => (.ok a, 1, t)
    | .error e, 0 => (.retryError e, 1, t)
    | .error _, rem + 1 =>
      let rec' := tenacity_go attempt (i + 1) rem
      (rec'.1, rec'.2.1 + 1, rec'.2.2 + t)

/-- `@retry(stop=stop_after_attempt(maxAttempts), ...)` around an attempt
body: up to `maxAttempts` executions. -/
def tenacity_run {α : Type} (maxAttempts : ℕ) (attempt : ℕ → Except PyError α × Bool) :
    TenacityResult α × ℕ × ℕ :=
  tenacity_go attempt 0 (maxAttempts - 1)

/-- `HttpDownloader.download` (src/regscraper/downloader/http.py, lines
21-43): the attempt body wrapped in `@retry(stop=stop_after_attempt(3),
wait=wait_exponential(...))`.  `robots_allows` is the robots verdict for
`url`; `transport` is the network oracle for each attempt.  Result:
(outcome, admission attempts made, transport calls made). -/
def download (robots_allows : Bool) (url : String)
    (transport : ℕ → Except String (String × String)) :
    TenacityResult DownloadResult × ℕ × ℕ :=
  tenacity_run 3 (fun i => download_attempt robots_allows url (transport i))

end Downloader

namespace Throttler

/-- The `Settings` defaults (src/regscraper/config.py): delays in tenths of
a second, so `default_delay=2.0` is `20` and the `site_overrides` entries
`sec.gov: 5.0s/1`, `ec.europa.eu: 3.0s/2`, `fda.gov: 2.5s/2` become
`50/1`, `30/2`, `25/2`. -/
def default_delay : ℤ := 20

/-- `Settings.default_concurrency` (src/regscraper/config.py). -/
def default_concurrency : ℕ := 2

/-- `Settings.global_max_concurrency` (src/regscraper/config.py). -/
def global_max_concurrency : ℕ := 12

/-- `Settings.site_overrides` (src/regscraper/config.py): domain to
(delay, concurrency); the `type` field is irrelevant to throttling. -/
def site_overrides : List (String × ℤ × ℕ) :=
  [("sec.gov", (50, 1)), ("ec.europa.eu", (30, 2)), ("fda.gov", (25, 2))]

/-- The module-level `DomainThrottler` (src/regscraper/throttler/domain.py,
lines 8-13): one instance per domain with its own delay, semaphore and
`_last` timestamp (initialized 0.0). -/
structure DomainThrottler where
  domain : String
  delay : ℤ
  concurrency : ℕ
  last : ℤ
deriving DecidableEq

/-- `DomainThrottler.acquire` (src/regscraper/throttler/domain.py, lines
15-21), for one caller inside the semaphore: if the time elapsed since
`_last` is below `delay`, sleep `delay - elapsed + jitter` (the random
jitter drawn from [0, 0.4s]); then stamp `_last` with the current time.
Returns the updated throttler and the admission time. -/
def DomainThrottler.acquire (t : DomainThrottler) (now jitter : ℤ) :
    DomainThrottler × ℤ :=
  let elapsed := now - t.last
  if elapsed < t.delay then
    let wake := now + (t.delay - elapsed) + jitter
    ({ t with last := wake }, wake)
  else ({ t with last := now }, now)

/-- `get_for` (src/regscraper/throttler/domain.py, lines 30-37): the throttler
for a URL's domain is created from the site override when one exists, else
from the settings defaults. -/
def get_for (url : String) : DomainThrottler :=
  let dom := get_domain url
  match site_overrides.lookup dom with
  | some p => ⟨dom, p.1, p.2, 0⟩
  | none => ⟨dom, default_delay, default_concurrency, 0⟩

end Throttler

namespace Sched

/-- Where a task is in the `DomainThrottler.acquire` + transport lifecycle
(src/regscraper/infrastructure/domain.py, lines 15-39, composed with
`HttpDownloader.download`, src/regscraper/downloader/http.py, lines 22-43):

* `ready` — before `_global_semaphore.acquire()` (domain.py line 20);
* `holdsGlobal` — global permit held, before `domain_lock.acquire()` (line 25);
* `holdsDomain` — domain permit held, inside `_enforce_delay` (line 29);
* `admitted` — `acquire` returned: the domain permit was given back by the
  `finally` on line 31, the transport call is in flight holding only the
  global permit;
* `completed` — the caller's `finally` ran `release_throttle`/`release_global`
  (http.py line 43, domain.py lines 37-39);
* `failed` — an exception propagated out of `acquire` after the `except`
  block released the global permit (domain.py lines 33-35). -/
inductive Phase
  | ready
  | holdsGlobal
  | holdsDomain
  | admitted
  | completed
  | failed
deriving DecidableEq

/-- Whether (and where) a task's `acquire` raises: during the domain-lock
acquisition (covered by the `except` alone) or during the delay wait
(covered by the inner `finally` and then the `except`). -/
inductive FailMode
  | ok
  | atDomainAcquire
  | atDelay
deriving DecidableEq

/-- One concurrent task: its failure mode and current phase. -/
structure Task where
  mode : FailMode
  phase : Phase
deriving DecidableEq

/-- The shared state: available permits of the global semaphore and of one
domain's semaphore, plus every task. -/
structure Sys where
  global_avail : ℕ
  domain_avail : ℕ
  tasks : List Task
deriving DecidableEq

/-- One cooperative step of a single task against the two semaphores,
following `acquire`'s control flow: acquiring a semaphore with no available
permit blocks (no state change); the `atDomainAcquire` failure releases the
global permit (except block); the `atDelay` failure releases the domain
permit (inner finally) and then the global permit (except block); a
successful delay wait releases the domain permit (inner finally) and
admits; a completed transport releases the global permit
(`release_global`). -/
def taskStep (g d : ℕ) (t : Task) : ℕ × ℕ × Task :=
  match t.phase with
  | .ready => if g = 0 then (g, d, t) else (g - 1, d, { t with phase := .holdsGlobal })
  | .holdsGlobal =>
    match t.mode with
    | .atDomainAcquire => (g + 1, d, { t with phase := .failed })
    | _ => if d = 0 then (g, d, t) else (g, d - 1, { t with phase := .holdsDomain })
  | .holdsDomain =>
    match t.mode with
    | .atDelay => (g + 1, d + 1, { t with phase := .failed })
    | _ => (g, d + 1, { t with phase := .admitted })
  | .admitted => (g + 1, d, { t with phase := .completed })
  | .completed => (g, d, t)
  | .failed => (g, d, t)

/-- Run the scheduled task (no-op for an out-of-range index). -/
def step (s : Sys) (i : ℕ) : Sys :=
  match s.tasks[i]? with
  | none => s
  | some t =>
    ⟨(taskStep s.global_avail s.domain_avail t).1,
     (taskStep s.global_avail s.domain_avail t).2.1,
     s.tasks.set i (taskStep s.global_avail s.domain_avail t).2.2⟩

/-- Run a whole schedule (an arbitrary interleaving). -/
def run (s : Sys) (sched : List ℕ) : Sys := sched.foldl step s

/-- A task holding the global semaphore's permit: from global acquisition
until completion or failure (the transport call runs in phase `admitted`). -/
def is_global_holder (t : Task) : Bool :=
  t.phase == .holdsGlobal || t.phase == .holdsDomain || t.phase == .admitted

/-- A task holding the per-domain semaphore's permit. -/
def is_domain_holder (t : Task) : Bool := t.phase == .holdsDomain

/-- A task between admission (return of `acquire`) and completion: its
transport call is in flight. -/
def is_in_flight (t : Task) : Bool := t.phase == .admitted

/-- Number of tasks currently holding the global permit. -/
def global_holders (ts : List Task) : ℕ := ts.countP is_global_holder

/-- Number of tasks currently holding a domain permit. -/
def domain_holders (ts : List Task) : ℕ := ts.countP is_domain_holder

/-- Number of tasks between admission and completion. -/
def in_flight (ts : List Task) : ℕ := ts.countP is_in_flight

/-- Initial state: a global semaphore of `g` permits, one domain semaphore of
`c` permits (the domain's configured concurrency), and one ready task per
requested failure mode — every task then calls `acquire` for this domain
followed by a transport call. -/
def init (g c : ℕ) (modes : List FailMode) : Sys :=
  ⟨g, c, modes.map (fun m => ⟨m, .ready⟩)⟩

/-- `release_global` (src/regscraper/infrastructure/domain.py, lines 37-39)
on the shared state: `asyncio.Semaphore.release` increments the available
count unconditionally — it never fails and is not bounded by the
semaphore's initial value. -/
def release_global (s : Sys) : Sys := { s with global_avail := s.global_avail + 1 }

/-- The semaphore accounting invariant of the scheduler model: available
permits plus held permits equal each semaphore's initial value. -/
def Inv (G C : ℕ) (s : Sys) : Prop :=
  s.global_avail + global_holders s.tasks = G ∧
    s.domain_avail + domain_holders s.tasks = C

end Sched

namespace Batch

/-- One per-URL result dict of `BatchScraper` (src/regscraper/batch.py).
The dicts built inside `_scrape_single_url` carry the content fields
(`some _`); the dict built in `scrape_urls` for an exception captured by
`asyncio.gather` does not (`none`). -/
structure TaskResult where
  url : String
  success : Bool
  error : String
  text : String
  metadata : List (String × String)
  content_type : Option String
  content_length : Option ℕ
  text_length : Option ℕ
deriving DecidableEq

/-- How one task's work (download + extract) turns out:
* `succeeds` — the happy path;
* `failsCaught` — raises one of the exception types listed in
  `_scrape_single_url`'s `except` clause (ValueError, RuntimeError, OSError,
  ConnectionError, TimeoutError), message `e`;
* `failsUncaught` — raises anything else (e.g. tenacity's `RetryError`),
  which escapes the task and is captured by `asyncio.gather`. -/
inductive TaskBehavior
  | succeeds (text : String) (metadata : List (String × String))
      (content_type : String) (content_length : ℕ)
  | failsCaught (e : String)
  | failsUncaught (e : String)
deriving DecidableEq

/-- `BatchScraper._scrape_single_url` (src/regscraper/batch.py, lines
134-184): returns the success dict, or converts a listed exception into a
failed dict; any other exception escapes (`Except.error`). -/
def _scrape_single_url (url : String) (b : TaskBehavior) : Except String TaskResult :=
  match b with
  | .succeeds text metadata ct cl =>
    .ok ⟨url, true, "", text, metadata, some ct, some cl, some text.length⟩
  | .failsCaught e => .ok ⟨url, false, e, "", [], some "", some 0, some 0⟩
  | .failsUncaught e => .error e

/-- The task list plus result loop of `BatchScraper.scrape_urls`
(src/regscraper/batch.py, lines 97-122): one task per URL, indexed by input
position; `asyncio.gather(..., return_exceptions=True)` (an external
collaborator) returns the per-task outcomes in input order, and the loop
converts an escaped exception into a failed dict.  `behavior` is the oracle
giving each task's outcome (completion order cannot influence this list). -/
def scrape_urls_go (behavior : ℕ → TaskBehavior) : ℕ → List String → List TaskResult
  | _, [] => []
  | idx, url :: rest =>
    (match _scrape_single_url url (behavior idx) with
     | .ok r => r
     | .error e => ⟨url, false, e, "", [], none, none, none⟩) ::
      scrape_urls_go behavior (idx + 1) rest

/-- `BatchScraper.scrape_urls` (src/regscraper/batch.py, lines 72-132),
restricted to its result contract. -/
def scrape_urls (urls : List String) (behavior : ℕ → TaskBehavior) : List TaskResult :=
  scrape_urls_go behavior 0 urls

/-- A default `TaskResult` used with `List.getD` in statements. -/
def defaultResult : TaskResult := ⟨"", false, "", "", [], none, none, none⟩

end Batch

lemma lookup_setAssoc_self {α : Type} (l : List (String × α)) (k : String) (v : α) :
    (setAssoc l k v).lookup k = some v := by
  induction l with
  | nil => simp [setAssoc, List.lookup]
  | cons hd tl ih =>
    obtain ⟨k', v'⟩ := hd
    by_cases h : k' = k
    · subst h
      simp [setAssoc, List.lookup]
    · have hb : (k' == k) = false := beq_eq_false_iff_ne.mpr h
      have hb' : (k == k') = false := beq_eq_false_iff_ne.mpr (Ne.symm h)
      simp [setAssoc, hb, List.lookup, hb', ih]

lemma lookup_setAssoc_ne {α : Type} (l : List (String × α)) (k k' : String) (v : α)
    (h : k' ≠ k) : (setAssoc l k v).lookup k' = l.lookup k' := by
  induction l with
  | nil =>
    have hb : (k' == k) = false := beq_eq_false_iff_ne.mpr h
    simp [setAssoc, List.lookup, hb]
  | cons hd tl ih =>
    obtain ⟨k0, v0⟩ := hd
    by_cases h0 : k0 = k
    · subst h0
      have hb' : (k' == k0) = false := beq_eq_false_iff_ne.mpr h
      simp [setAssoc, List.lookup, hb']
    · have hb : (k0 == k) = false := beq_eq_false_iff_ne.mpr h0
      by_cases h1 : k' = k0
      · subst h1
        simp [setAssoc, hb, List.lookup]
      · have hb' : (k' == k0) = false := beq_eq_false_iff_ne.mpr h1
        simp [setAssoc, hb, List.lookup, hb', ih]

lemma countP_set {α : Type} (p : α → Bool) :
    ∀ (l : List α) (i : ℕ) (a b : α), l[i]? = some a →
      (l.set i b).countP p + (if p a then 1 else 0)
        = l.countP p + (if p b then 1 else 0)
  | [], i, a, b, h => by simp at h
  | x :: t, 0, a, b, h => by
    simp at h
    subst h
    simp [List.countP_cons]
    split_ifs <;> omega
  | x :: t, i + 1, a, b, h => by
    simp at h
    have ih := countP_set p t i a b h
    simp [List.countP_cons]
    omega

lemma taskStep_global_acct (g d : ℕ) (t : Sched.Task) :
    (Sched.taskStep g d t).1
        + (if Sched.is_global_holder (Sched.taskStep g d t).2.2 then 1 else 0)
      = g + (if Sched.is_global_holder t then 1 else 0) := by
  obtain ⟨m, p⟩ := t
  cases p <;> cases m <;>
    simp [Sched.taskStep, Sched.is_global_holder] <;>
    split_ifs <;> simp_all <;> omega

lemma taskStep_domain_acct (g d : ℕ) (t : Sched.Task) :
    (Sched.taskStep g d t).2.1
        + (if Sched.is_domain_holder (Sched.taskStep g d t).2.2 then 1 else 0)
      = d + (if Sched.is_domain_holder t then 1 else 0) := by
  obtain ⟨m, p⟩ := t
  cases p <;> cases m <;>
    simp [Sched.taskStep, Sched.is_domain_holder] <;>
    split_ifs <;> simp_all <;> omega

lemma step_inv {G C : ℕ} {s : Sched.Sys} (i : ℕ) (h : Sched.Inv G C s) :
    Sched.Inv G C (Sched.step s i) := by
  obtain ⟨hg, hd⟩ := h
  unfold Sched.Inv Sched.step
  cases hidx : s.tasks[i]? with
  | none => exact ⟨hg, hd⟩
  | some t =>
    have hsetg := countP_set Sched.is_global_holder s.tasks i t
      (Sched.taskStep s.global_avail s.domain_avail t).2.2 hidx
    have hsetd := countP_set Sched.is_domain_holder s.tasks i t
      (Sched.taskStep s.global_avail s.domain_avail t).2.2 hidx
    have haccg := taskStep_global_acct s.global_avail s.domain_avail t
    have haccd := taskStep_domain_acct s.global_avail s.domain_avail t
    simp only [Sched.global_holders, Sched.domain_holders] at hg hd hsetg hsetd ⊢
    constructor <;> omega

lemma run_inv {G C : ℕ} : ∀ (sched : List ℕ) (s : Sched.Sys),
    Sched.Inv G C s → Sched.Inv G C (Sched.run s sched)
  | [], s, h => h
  | i :: rest, s, h => by
    have h1 := step_inv i h
    simpa [Sched.run] using run_inv rest (Sched.step s i) h1

lemma countP_ready_zero (p : Sched.Task → Bool)
    (hp : ∀ m, p ⟨m, Sched.Phase.ready⟩ = false) :
    ∀ modes : List Sched.FailMode,
      (modes.map (fun m => (⟨m, Sched.Phase.ready⟩ : Sched.Task))).countP p = 0
  | [] => rfl
  | m :: rest => by
    simp [List.countP_cons, hp m, countP_ready_zero p hp rest]

lemma init_inv (g c : ℕ) (modes : List Sched.FailMode) :
    Sched.Inv g c (Sched.init g c modes) := by
  unfold Sched.Inv
  refine ⟨?_, ?_⟩
  · have h0 := countP_ready_zero Sched.is_global_holder (fun m => rfl) modes
    simp [Sched.init, Sched.global_holders, h0]
  · have h0 := countP_ready_zero Sched.is_domain_holder (fun m => rfl) modes
    simp [Sched.init, Sched.domain_holders, h0]

lemma in_flight_le_global_holders (ts : List Sched.Task) :
    Sched.in_flight ts ≤ Sched.global_holders ts := by
  unfold Sched.in_flight Sched.global_holders
  apply List.countP_mono_left
  intro t _ h
  simp [Sched.is_in_flight] at h
  simp [Sched.is_global_holder, h]

/-- Claim C1, counterexample: with a domain semaphore of 1 permit (configured
concurrency 1) and two non-failing tasks, the interleaving in which both run
`acquire` to completion before either transport call finishes leaves both
tasks between admission and completion simultaneously — 2 > 1, so the number
of tasks between admission and completion for one domain can exceed the
domain's configured concurrency, because `acquire` itself releases the
per-domain slot before returning. -/
theorem c1_counterexample :
    (Sched.init 10 1 [Sched.FailMode.ok, Sched.FailMode.ok]).domain_avail = 1 ∧
    1 < Sched.in_flight
        (Sched.run (Sched.init 10 1 [Sched.FailMode.ok, Sched.FailMode.ok])
          [0, 0, 0, 1, 1, 1]).tasks := by
  decide

/-- Claim C1 (amended): at no point do more than `maxConcurrency` tasks hold
the per-domain slot, and the slot accounting is exact; but the per-domain
slot is held only through the delay gate — `acquire` releases it at
admission (the `finally` on line 31 of domain.py, last conjunct) — so what
bounds the tasks between admission and completion (phase `admitted`) is the
global ceiling, not the domain's concurrency. -/
theorem c1_slot_scope (g c : ℕ) (modes : List Sched.FailMode) (sched : List ℕ) :
    Sched.domain_holders (Sched.run (Sched.init g c modes) sched).tasks ≤ c ∧
    (Sched.run (Sched.init g c modes) sched).domain_avail
        + Sched.domain_holders (Sched.run (Sched.init g c modes) sched).tasks = c ∧
    Sched.in_flight (Sched.run (Sched.init g c modes) sched).tasks ≤ g ∧
    (∀ g' d' : ℕ, Sched.taskStep g' d' ⟨Sched.FailMode.ok, Sched.Phase.holdsDomain⟩
        = (g', d' + 1, ⟨Sched.FailMode.ok, Sched.Phase.admitted⟩)) := by
  obtain ⟨hg, hd⟩ := run_inv sched _ (init_inv g c modes)
  refine ⟨by omega, hd, ?_, fun g' d' => rfl⟩
  have hle := in_flight_le_global_holders (Sched.run (Sched.init g c modes) sched).tasks
  omega

/-- Claim C6: scoped acquisition inside `acquire` — an exception during the
delay wait releases the domain permit (inner `finally`) and the global
permit (`except` block) before the task fails; an exception during the
domain-lock acquisition releases the global permit; and over every
interleaving, with any mix of failing tasks, the global semaphore's
accounting stays exact — failed tasks hold no leaked global slot. -/
theorem c6_scoped_release :
    (∀ g d : ℕ, Sched.taskStep g d ⟨Sched.FailMode.atDelay, Sched.Phase.holdsDomain⟩
        = (g + 1, d + 1, ⟨Sched.FailMode.atDelay, Sched.Phase.failed⟩)) ∧
    (∀ g d : ℕ, Sched.taskStep g d ⟨Sched.FailMode.atDomainAcquire, Sched.Phase.holdsGlobal⟩
        = (g + 1, d, ⟨Sched.FailMode.atDomainAcquire, Sched.Phase.failed⟩)) ∧
    (∀ (g c : ℕ) (modes : List Sched.FailMode) (sched : List ℕ),
      (Sched.run (Sched.init g c modes) sched).global_avail
          + Sched.global_holders (Sched.run (Sched.init g c modes) sched).tasks = g) :=
  ⟨fun _ _ => rfl, fun _ _ => rfl,
   fun g c modes sched => (run_inv sched _ (init_inv g c modes)).1⟩

/-- Claim C10: `release_global` is an unguarded `asyncio.Semaphore.release` —
it never fails and increments the available count unconditionally, so one
unmatched release on the ceiling-10 global semaphore raises its count to 11,
after which 11 tasks hold global slots simultaneously. -/
theorem c10_release_unguarded :
    (∀ s : Sched.Sys, (Sched.release_global s).global_avail = s.global_avail + 1) ∧
    (Sched.release_global
        (Sched.init 10 1 (List.replicate 11 Sched.FailMode.ok))).global_avail = 11 ∧
    Sched.global_holders
        (Sched.run (Sched.release_global (Sched.init 10 1 (List.replicate 11 Sched.FailMode.ok)))
          [0, 1, 2, 3, 4, 5, 6, 7, 8, 9, 10]).tasks = 11 ∧
    10 < 11 :=
  ⟨fun _ => rfl, by decide, by decide, by decide⟩

lemma can_fetch_allow_all (agent url : String) :
    Robots.can_fetch Robots.allow_all_policy agent url = true := rfl

lemma parser_hit {c : Robots.RobotsTxtChecker} {d : String} {p : Robots.RobotFileParser}
    (h : c.cache.lookup d = some p) (net : Robots.HttpResult) :
    Robots._get_robots_policy c d net = (p, c, 0) := by
  simp [Robots._get_robots_policy, h]

lemma parser_miss_fail {c : Robots.RobotsTxtChecker} {d : String} {net : Robots.HttpResult}
    (hmiss : c.cache.lookup d = none) (hfail : Robots.failed_fetch net = true) :
    Robots._get_robots_policy c d net
      = (Robots.allow_all_policy,
         { c with cache := setAssoc c.cache d Robots.allow_all_policy }, 1) := by
  cases net with
  | response status lines =>
    have hb : (status == 200) = false := by simpa [Robots.failed_fetch] using hfail
    simp [Robots._get_robots_policy, hmiss, hb]
  | netError => simp [Robots._get_robots_policy, hmiss]

lemma parser_miss_count {c : Robots.RobotsTxtChecker} {d : String} {net : Robots.HttpResult}
    (hmiss : c.cache.lookup d = none) :
    (Robots._get_robots_policy c d net).2.2 = 1 ∧
    (Robots._get_robots_policy c d net).2.1.cache.lookup d
      = some (Robots._get_robots_policy c d net).1 := by
  cases net with
  | response status lines =>
    by_cases h200 : (status == 200) = true
    · simp [Robots._get_robots_policy, hmiss, h200, lookup_setAssoc_self]
    · have hb : (status == 200) = false := by simpa using h200
      simp [Robots._get_robots_policy, hmiss, hb, lookup_setAssoc_self]
  | netError => simp [Robots._get_robots_policy, hmiss, lookup_setAssoc_self]

lemma is_allowed_hit {c : Robots.RobotsTxtChecker} {url : String} {p : Robots.RobotFileParser}
    {net : Robots.HttpResult} (h : c.cache.lookup (get_domain url) = some p) :
    Robots.is_allowed c url net = (Robots.can_fetch p c.user_agent url, c, 0) := by
  simp [Robots.is_allowed, parser_hit h net]

lemma get_policy_preserves {c : Robots.RobotsTxtChecker} {d d' : String}
    {p : Robots.RobotFileParser} (h : c.cache.lookup d' = some p) (net : Robots.HttpResult) :
    (Robots._get_robots_policy c d net).2.1.cache.lookup d' = some p := by
  cases hx : c.cache.lookup d with
  | some q => simp [parser_hit hx net, h]
  | none =>
    have hne : d' ≠ d := by
      intro he
      subst he
      rw [h] at hx
      cases hx
    cases net with
    | response status lines =>
      by_cases h200 : (status == 200) = true
      · simp [Robots._get_robots_policy, hx, h200, lookup_setAssoc_ne _ _ _ _ hne, h]
      · have hb : (status == 200) = false := by simpa using h200
        simp [Robots._get_robots_policy, hx, hb, lookup_setAssoc_ne _ _ _ _ hne, h]
    | netError => simp [Robots._get_robots_policy, hx, lookup_setAssoc_ne _ _ _ _ hne, h]

lemma is_allowed_preserves {c : Robots.RobotsTxtChecker} {d' : String}
    {p : Robots.RobotFileParser} (h : c.cache.lookup d' = some p)
    (url : String) (net : Robots.HttpResult) :
    (Robots.is_allowed c url net).2.1.cache.lookup d' = some p := by
  simpa [Robots.is_allowed] using get_policy_preserves h net

lemma run_calls_preserves : ∀ (calls : List (String × Robots.HttpResult))
    (c : Robots.RobotsTxtChecker) {d : String} {p : Robots.RobotFileParser},
    c.cache.lookup d = some p → (Robots.run_calls c calls).cache.lookup d = some p
  | [], _, _, _, h => h
  | (u, n) :: rest, c, d, p, h => by
    simpa [Robots.run_calls] using
      run_calls_preserves rest _ (is_allowed_preserves h u n)

lemma run_count_cached : ∀ (calls : List (String × Robots.HttpResult))
    (c : Robots.RobotsTxtChecker) {d : String} {p : Robots.RobotFileParser},
    c.cache.lookup d = some p → Robots.run_count c calls d = 0
  | [], _, _, _, _ => rfl
  | (u, n) :: rest, c, d, p, h => by
    unfold Robots.run_count
    by_cases hd : get_domain u = d
    · have hb : (get_domain u == d) = true := by simpa using hd
      have hhit : c.cache.lookup (get_domain u) = some p := by rw [hd]; exact h
      simp [hb, is_allowed_hit hhit, run_count_cached rest c h]
    · have hb : (get_domain u == d) = false := by simpa using hd
      simp [hb, run_count_cached rest _ (is_allowed_preserves h u n)]

lemma run_count_le_one : ∀ (calls : List (String × Robots.HttpResult))
    (c : Robots.RobotsTxtChecker) (d : String), Robots.run_count c calls d ≤ 1
  | [], _, _ => by simp [Robots.run_count]
  | (u, n) :: rest, c, d => by
    unfold Robots.run_count
    by_cases hd : get_domain u = d
    · have hb : (get_domain u == d) = true := by simpa using hd
      cases hx : c.cache.lookup (get_domain u) with
      | some q => simp [hb, is_allowed_hit hx, run_count_le_one rest c d]
      | none =>
        have h1 := @parser_miss_count c (get_domain u) n hx
        have hst : (Robots.is_allowed c u n).2.1.cache.lookup d
            = some (Robots._get_robots_policy c (get_domain u) n).1 := by
          rw [← hd]
          simpa [Robots.is_allowed] using h1.2
        have hz := run_count_cached rest _ hst
        have hcnt : (Robots.is_allowed c u n).2.2 = 1 := by
          simpa [Robots.is_allowed] using h1.1
        simp [hb, hcnt, hz]
    · have hb : (get_domain u == d) = false := by simpa using hd
      simp [hb, run_count_le_one rest _ d]

/-- Claim C7: the policy cache is permanent and fetch-once per resource — in
any sequence of `is_allowed` calls, at most one robots.txt retrieval is
performed per domain, and every call whose domain is already cached is
answered from the cached parser with no retrieval and no state change. -/
theorem c7_fetch_once :
    (∀ (c : Robots.RobotsTxtChecker) (calls : List (String × Robots.HttpResult))
      (d : String), Robots.run_count c calls d ≤ 1) ∧
    (∀ (c : Robots.RobotsTxtChecker) (url : String) (net : Robots.HttpResult)
      (p : Robots.RobotFileParser), c.cache.lookup (get_domain url) = some p →
      Robots.is_allowed c url net = (Robots.can_fetch p c.user_agent url, c, 0)) :=
  ⟨fun c calls d => run_count_le_one calls c d,
   fun _ _ _ _ h => is_allowed_hit h⟩

/-- Witness for C7 at a concrete cached checker: the second call for
`example.com` is answered from the cache, fetching nothing and leaving the
checker unchanged. -/
theorem c7_fetch_once_witness :
    Robots.is_allowed
        ⟨"RegScraper/2.0", [("example.com", Robots.allow_all_policy)], []⟩
        "https://example.com/x" Robots.HttpResult.netError
      = (true, ⟨"RegScraper/2.0", [("example.com", Robots.allow_all_policy)], []⟩, 0) :=
  c7_fetch_once.2
    ⟨"RegScraper/2.0", [("example.com", Robots.allow_all_policy)], []⟩
    "https://example.com/x" Robots.HttpResult.netError Robots.allow_all_policy
    (by decide)

/-- Claim C4: fail-open is permanent and idempotent per resource — if the
first robots.txt retrieval for a domain fails (non-200 status, network
error or timeout), `is_allowed` answers `true` on that call, and on every
subsequent call for that domain in the run (across any interleaved calls
for other domains), because the synthetic allow-all parser is installed in
the permanent cache. -/
theorem c4_fail_open (c : Robots.RobotsTxtChecker) (url : String) (net : Robots.HttpResult)
    (hmiss : c.cache.lookup (get_domain url) = none)
    (hfail : Robots.failed_fetch net = true) :
    (Robots.is_allowed c url net).1 = true ∧
    ∀ (calls : List (String × Robots.HttpResult)) (url' : String)
      (net' : Robots.HttpResult), get_domain url' = get_domain url →
      (Robots.is_allowed (Robots.run_calls (Robots.is_allowed c url net).2.1 calls)
          url' net').1 = true := by
  have hp := parser_miss_fail hmiss hfail
  constructor
  · simp [Robots.is_allowed, hp, can_fetch_allow_all]
  · intro calls url' net' hdom
    have hcache : (Robots.is_allowed c url net).2.1.cache.lookup (get_domain url)
        = some Robots.allow_all_policy := by
      simp [Robots.is_allowed, hp, lookup_setAssoc_self]
    have hrun := run_calls_preserves calls _ hcache
    have hhit : (Robots.run_calls (Robots.is_allowed c url net).2.1 calls).cache.lookup
        (get_domain url') = some Robots.allow_all_policy := by
      rw [hdom]
      exact hrun
    simp [is_allowed_hit hhit, can_fetch_allow_all]

/-- Witness for C4: a fresh checker whose first retrieval for `example.com`
raises a network error. -/
theorem c4_fail_open_witness :
    (Robots.is_allowed ⟨"RegScraper/2.0", [], []⟩ "https://example.com/a"
        Robots.HttpResult.netError).1 = true ∧
    ∀ (calls : List (String × Robots.HttpResult)) (url' : String)
      (net' : Robots.HttpResult), get_domain url' = get_domain "https://example.com/a" →
      (Robots.is_allowed
          (Robots.run_calls
            (Robots.is_allowed ⟨"RegScraper/2.0", [], []⟩ "https://example.com/a"
              Robots.HttpResult.netError).2.1 calls) url' net').1 = true :=
  c4_fail_open ⟨"RegScraper/2.0", [], []⟩ "https://example.com/a"
    Robots.HttpResult.netError (by decide) (by decide)

/-- Claim C5: fail-fast admission — for a URL the crawl policy disallows,
`check_and_acquire` raises `PermissionError` before the throttler is
entered: the global semaphore and the per-domain slot are untouched
(`throttler` state unchanged, acquisition path never entered) and the
transport is never called. -/
theorem c5_fail_fast (s : Gateway.ThrottledRobotsChecker) (url : String)
    (net : Robots.HttpResult) (now : ℤ)
    (h : (Robots.is_allowed s.robots url net).1 = false) :
    (Gateway.check_and_acquire s net url now).1
        = Except.error (PyError.permissionError ("URL blocked by robots.txt: " ++ url)) ∧
    (Gateway.check_and_acquire s net url now).2.1.throttler = s.throttler ∧
    (Gateway.check_and_acquire s net url now).2.2 = false ∧
    (∀ transport : Except String (String × String),
      (Downloader.download_attempt false url transport).2 = false) := by
  refine ⟨?_, ?_, ?_, fun transport => rfl⟩ <;>
    simp [Gateway.check_and_acquire, h]

/-- Witness for C5: a checker whose cached policy for `example.com` is
`Disallow: /`, denying the URL. -/
theorem c5_fail_fast_witness :
    (Gateway.check_and_acquire
        ⟨⟨"RegScraper/2.0",
          [("example.com", Robots.RobotFileParser.parse ["User-agent: *", "Disallow: /"])],
          []⟩, Infra.DomainThrottler.init⟩
        Robots.HttpResult.netError "https://example.com/x" 0).1
      = Except.error (PyError.permissionError
          ("URL blocked by robots.txt: " ++ "https://example.com/x")) ∧
    (Gateway.check_and_acquire
        ⟨⟨"RegScraper/2.0",
          [("example.com", Robots.RobotFileParser.parse ["User-agent: *", "Disallow: /"])],
          []⟩, Infra.DomainThrottler.init⟩
        Robots.HttpResult.netError "https://example.com/x" 0).2.1.throttler
      = Infra.DomainThrottler.init ∧
    (Gateway.check_and_acquire
        ⟨⟨"RegScraper/2.0",
          [("example.com", Robots.RobotFileParser.parse ["User-agent: *", "Disallow: /"])],
          []⟩, Infra.DomainThrottler.init⟩
        Robots.HttpResult.netError "https://example.com/x" 0).2.2 = false ∧
    (∀ transport : Except String (String × String),
      (Downloader.download_attempt false "https://example.com/x" transport).2 = false) :=
  c5_fail_fast
    ⟨⟨"RegScraper/2.0",
      [("example.com", Robots.RobotFileParser.parse ["User-agent: *", "Disallow: /"])],
      []⟩, Infra.DomainThrottler.init⟩
    "https://example.com/x" Robots.HttpResult.netError 0 (by decide)

/-- Claim C2, counterexample: for a robots-denied URL, `download` performs
3 admission attempts, not exactly 1 — tenacity's default retry condition
retries the `PermissionError` (the repo's own test
`test_robots_blocked_download` expects the resulting `RetryError`). -/
theorem c2_counterexample :
    (Downloader.download false "https://example.com/blocked.pdf"
        (fun _ => Except.ok ("", "text/html"))).2.1 = 3 ∧
    ¬ (Downloader.download false "https://example.com/blocked.pdf"
        (fun _ => Except.ok ("", "text/html"))).2.1 = 1 := by
  decide

/-- Claim C2 (amended): a PolicyDenied failure IS retried — the retry
decorator's default condition retries every exception, so for a URL whose
robots policy denies it, `download` re-invokes the admission check on each
of its 3 attempts, never reaches the transport, and surfaces a `RetryError`
wrapping the `PermissionError` as the terminal outcome. -/
theorem c2_policy_denied_retried (url : String)
    (transport : ℕ → Except String (String × String)) :
    Downloader.download false url transport
      = (Downloader.TenacityResult.retryError
          (PyError.permissionError ("URL blocked by robots.txt: " ++ url)), 3, 0) := rfl

/-- Claim C8: processor selection is the fixed-priority first-match chain
PDF → DOCX/DOC → RSS → HTML, and the extension beats a misleading declared
type: every URL whose lower-cased form ends in `.pdf` selects the PDF
strategy even against a declared `text/html`. -/
theorem c8_router_precedence :
    Processors.processors.map Prod.fst
        = [Processors.ProcessorKind.pdf, Processors.ProcessorKind.docx,
           Processors.ProcessorKind.rss, Processors.ProcessorKind.html] ∧
    ∀ url : String, Py.endswith (Py.lower url) ".pdf" = true →
      Processors.get_processor url (some "text/html") = Processors.ProcessorKind.pdf := by
  refine ⟨rfl, fun url h => ?_⟩
  simp [Processors.get_processor, Processors.processors, List.find?,
    Processors.pdf_can_handle, h]

/-- Witness for C8: an upper-case `.PDF` URL with a misleading `text/html`
declared type still routes to the PDF strategy. -/
theorem c8_router_precedence_witness :
    Py.endswith (Py.lower "https://agency.gov/Final-Rule.PDF") ".pdf" = true ∧
    Processors.get_processor "https://agency.gov/Final-Rule.PDF" (some "text/html")
      = Processors.ProcessorKind.pdf :=
  ⟨by decide,
   c8_router_precedence.2 "https://agency.gov/Final-Rule.PDF" (by decide)⟩

lemma go_length (b : ℕ → Batch.TaskBehavior) : ∀ (l : List String) (k : ℕ),
    (Batch.scrape_urls_go b k l).length = l.length
  | [], _ => rfl
  | _ :: rest, k => by
    simp [Batch.scrape_urls_go, go_length b rest (k + 1)]

lemma go_url (b : ℕ → Batch.TaskBehavior) : ∀ (l : List String) (k i : ℕ),
    i < l.length →
    ((Batch.scrape_urls_go b k l).getD i Batch.defaultResult).url = l.getD i ""
  | [], _, i, h => by simp at h
  | u :: rest, k, 0, _ => by
    cases hb : b k <;>
      simp [Batch.scrape_urls_go, Batch._scrape_single_url, hb]
  | u :: rest, k, i + 1, h => by
    have h' : i < rest.length := by simpa using h
    simpa [Batch.scrape_urls_go] using go_url b rest (k + 1) i h'

lemma go_caught (b : ℕ → Batch.TaskBehavior) : ∀ (l : List String) (k i : ℕ) (e : String),
    i < l.length → b (k + i) = Batch.TaskBehavior.failsCaught e →
    (Batch.scrape_urls_go b k l).getD i Batch.defaultResult
      = ⟨l.getD i "", false, e, "", [], some "", some 0, some 0⟩
  | [], _, i, _, h, _ => by simp at h
  | u :: rest, k, 0, e, _, hb => by
    have hb0 : b k = Batch.TaskBehavior.failsCaught e := by simpa using hb
    simp [Batch.scrape_urls_go, Batch._scrape_single_url, hb0]
  | u :: rest, k, i + 1, e, h, hb => by
    have h' : i < rest.length := by simpa using h
    have hb' : b (k + 1 + i) = Batch.TaskBehavior.failsCaught e := by
      have hk : k + 1 + i = k + (i + 1) := by omega
      rw [hk]
      exact hb
    simpa [Batch.scrape_urls_go] using go_caught b rest (k + 1) i e h' hb'

lemma go_uncaught (b : ℕ → Batch.TaskBehavior) : ∀ (l : List String) (k i : ℕ) (e : String),
    i < l.length → b (k + i) = Batch.TaskBehavior.failsUncaught e →
    (Batch.scrape_urls_go b k l).getD i Batch.defaultResult
      = ⟨l.getD i "", false, e, "", [], none, none, none⟩
  | [], _, i, _, h, _ => by simp at h
  | u :: rest, k, 0, e, _, hb => by
    have hb0 : b k = Batch.TaskBehavior.failsUncaught e := by simpa using hb
    simp [Batch.scrape_urls_go, Batch._scrape_single_url, hb0]
  | u :: rest, k, i + 1, e, h, hb => by
    have h' : i < rest.length := by simpa using h
    have hb' : b (k + 1 + i) = Batch.TaskBehavior.failsUncaught e := by
      have hk : k + 1 + i = k + (i + 1) := by omega
      rw [hk]
      exact hb
    simpa [Batch.scrape_urls_go] using go_uncaught b rest (k + 1) i e h' hb'

/-- Claim C9: the batch run returns exactly one result per input URL, in
input order (the i-th result carries the i-th URL); a task exception caught
inside `_scrape_single_url` and a task exception captured by
`asyncio.gather` are both converted into a failed result with
`success = false` carrying the error description; and no per-task failure
escapes — `scrape_urls` is total and sibling entries are independent of the
failing task's behavior. -/
theorem c9_batch_results (urls : List String) (behavior : ℕ → Batch.TaskBehavior) :
    (Batch.scrape_urls urls behavior).length = urls.length ∧
    (∀ i : ℕ, i < urls.length →
      ((Batch.scrape_urls urls behavior).getD i Batch.defaultResult).url
        = urls.getD i "") ∧
    (∀ (i : ℕ) (e : String), i < urls.length →
      behavior i = Batch.TaskBehavior.failsCaught e →
      ((Batch.scrape_urls urls behavior).getD i Batch.defaultResult).success = false ∧
      ((Batch.scrape_urls urls behavior).getD i Batch.defaultResult).error = e) ∧
    (∀ (i : ℕ) (e : String), i < urls.length →
      behavior i = Batch.TaskBehavior.failsUncaught e →
      ((Batch.scrape_urls urls behavior).getD i Batch.defaultResult).success = false ∧
      ((Batch.scrape_urls urls behavior).getD i Batch.defaultResult).error = e) := by
  refine ⟨go_length behavior urls 0, fun i h => go_url behavior urls 0 i h, ?_, ?_⟩
  · intro i e h hb
    have hres := go_caught behavior urls 0 i e h (by simpa using hb)
    unfold Batch.scrape_urls
    rw [hres]
    exact ⟨rfl, rfl⟩
  · intro i e h hb
    have hres := go_uncaught behavior urls 0 i e h (by simpa using hb)
    unfold Batch.scrape_urls
    rw [hres]
    exact ⟨rfl, rfl⟩

/-- Witness for C9: a two-URL batch whose second task raises an exception
that escapes the task (e.g. a tenacity `RetryError`); the batch still yields
a failed result carrying the description at position 1. -/
theorem c9_batch_results_witness :
    (((Batch.scrape_urls ["https://a.example/x", "https://b.example/y"]
        (fun i => if i = 0 then Batch.TaskBehavior.succeeds "text" [] "text/html" 4
                  else Batch.TaskBehavior.failsUncaught "boom")).getD 1
        Batch.defaultResult).success = false ∧
     ((Batch.scrape_urls ["https://a.example/x", "https://b.example/y"]
        (fun i => if i = 0 then Batch.TaskBehavior.succeeds "text" [] "text/html" 4
                  else Batch.TaskBehavior.failsUncaught "boom")).getD 1
        Batch.defaultResult).error = "boom") :=
  (c9_batch_results ["https://a.example/x", "https://b.example/y"]
      (fun i => if i = 0 then Batch.TaskBehavior.succeeds "text" [] "text/html" 4
                else Batch.TaskBehavior.failsUncaught "boom")).2.2.2
    1 "boom" (by decide) (by decide)

lemma module_acquire_last (t : Throttler.DomainThrottler) (now j : ℤ) :
    (t.acquire now j).1.last = (t.acquire now j).2 := by
  by_cases h : now - t.last < t.delay <;>
    simp [Throttler.DomainThrottler.acquire, h]

lemma module_acquire_delay (t : Throttler.DomainThrottler) (now j : ℤ) :
    (t.acquire now j).1.delay = t.delay := by
  by_cases h : now - t.last < t.delay <;>
    simp [Throttler.DomainThrottler.acquire, h]

lemma module_acquire_gap (t : Throttler.DomainThrottler) (now j : ℤ)
    (hj : 0 ≤ j) :
    t.delay ≤ (t.acquire now j).2 - t.last := by
  by_cases h : now - t.last < t.delay
  · simp [Throttler.DomainThrottler.acquire, h]
    linarith
  · have h' : t.delay ≤ now - t.last := not_lt.mp h
    simp [Throttler.DomainThrottler.acquire, h]
    linarith

/-- Claim C3 (amended): for the module-level throttler
(src/regscraper/throttler/domain.py) two sequential admissions for a domain
are separated by at least that domain's configured delay, with the
non-negative jitter only adding to it, and `get_for` resolves that delay
from the site overrides (`sec.gov` → 5.0 s, concurrency 1).  For the
infrastructure `DomainThrottler` (src/regscraper/infrastructure/domain.py),
however, the enforced separation is always the instance-wide
`default_delay`: `configure_domain`'s delay argument has no effect on the
state (it only sizes the domain's semaphore), and `_enforce_delay` schedules
the next admission at exactly `last + default_delay` whatever the domain's
configured delay was. -/
theorem c3_min_delay :
    (∀ (t : Throttler.DomainThrottler) (n1 j1 n2 j2 : ℤ), 0 ≤ j2 →
      (t.acquire n1 j1).2 ≤ n2 →
      t.delay ≤ ((t.acquire n1 j1).1.acquire n2 j2).2 - (t.acquire n1 j1).2) ∧
    ((Throttler.get_for "https://sec.gov/rules").delay = 50 ∧
      (Throttler.get_for "https://sec.gov/rules").concurrency = 1) ∧
    (∀ (st : Infra.DomainThrottler) (dom : String) (d1 d2 : ℤ) (cc : ℕ),
      Infra.configure_domain st dom d1 cc = Infra.configure_domain st dom d2 cc) ∧
    (∀ (st : Infra.DomainThrottler) (dom : String) (now last : ℤ),
      st.last_request.lookup dom = some last → now - last < st.default_delay →
      (Infra._enforce_delay st dom now).2 = last + st.default_delay) := by
  refine ⟨?_, ⟨by decide, by decide⟩, fun st dom d1 d2 cc => rfl, ?_⟩
  · intro t n1 j1 n2 j2 hj2 hseq
    have hg := module_acquire_gap ((t.acquire n1 j1).1) n2 j2 hj2
    rw [module_acquire_delay, module_acquire_last] at hg
    exact hg
  · intro st dom now last hlook hlt
    simp [Infra._enforce_delay, hlook, hlt]
    ring

/-- Witness for C3: the `sec.gov` throttler (override delay 5.0 s) spaces two
back-to-back admissions by at least its delay even with jitter 0.3 s; and a
domain whose `last_request` is 0 gets its next admission at exactly
`default_delay` (2.0 s) on the infrastructure throttler. -/
theorem c3_min_delay_witness :
    (Throttler.get_for "https://sec.gov/rules").delay
        ≤ (((Throttler.get_for "https://sec.gov/rules").acquire 0 0).1.acquire 50 3).2
          - ((Throttler.get_for "https://sec.gov/rules").acquire 0 0).2 ∧
    (Infra._enforce_delay ⟨20, 2, [], [("slow-site.com", 0)], 10⟩ "slow-site.com" 0).2
        = 0 + (20 : ℤ) :=
  ⟨c3_min_delay.1 (Throttler.get_for "https://sec.gov/rules") 0 0 50 3
      (by decide) (by decide),
   c3_min_delay.2.2.2 ⟨20, 2, [], [("slow-site.com", 0)], 10⟩ "slow-site.com" 0 0
      (by decide) (by decide)⟩

/-- Claim C3, counterexample: configure `slow-site.com` with delay 10.0 s
(= 100 tenths) and concurrency 1 on an infrastructure throttler whose
default delay is 2.0 s; two sequential admissions (with `release_global`
between them) are separated by exactly 2.0 s — the default delay — not the
10.0 s the domain was configured with, because `configure_domain` discards
its delay argument and `_enforce_delay` always uses `default_delay`. -/
theorem c3_counterexample :
    ((Infra.acquire
        (Infra.configure_domain Infra.DomainThrottler.init "slow-site.com" 100 1)
        "https://slow-site.com/a" 0).bind (fun p =>
      (Infra.acquire (Infra.release_global p.1) "https://slow-site.com/b" 0).map
        (fun q => q.2 - p.2))) = some 20 ∧
    Infra.DomainThrottler.init.default_delay = 20 ∧
    ¬ (100 ≤ (20 : ℤ)) := by
  decide
